import Mathlib

/-!
Verification development for the wled-draw repository.

The repository is a Vue-based pixel editor that mirrors a drawing grid onto a
WLED LED matrix.  The algorithmic core embedded here:

* the serpentine payload encoder (`formattedColors` in the composable embedded
  in `Controls.vue`),
* the gradient colour-stop ramp and linear projection
  (`GradientGenerator.vue`: `getColorAtPosition`, `interpolateColor`,
  `calculateOptimizedPixels`, `convertAngleToCss`),
* the drawing state machine with history and debounced network sends
  (the `useWledDraw` composable: `updatePixel`, `batchUpdatePixels`,
  `applyPixelArray`, `clearScreen`, `undo`, `setupGrid`,
  `debouncedSendToWled`, `flushChanges`).

JavaScript numbers are modelled by `ℚ` where the computations stay rational
and by `ℝ` where `Math.cos`/`Math.sin` are involved (all values appearing in
the settled claims are exactly representable, so the models are exact on the
inputs used).  JavaScript strings are Lean `String`s.  The browser event loop
is modelled by explicit events: the single-shot debounce timer becomes a
boolean `debounceTimer` plus an explicit `fireTimer` transition for its
expiry, and `localStorage` becomes explicit `stored…` fields.
-/

/-- Value of one hex digit, as `parseInt(…, 16)` assigns it (`0`–`9`,
`a`–`f`, `A`–`F`; other characters do not occur in the colour strings the
app produces). -/
def hexDigitVal (c : Char) : Nat :=
  if '0' ≤ c ∧ c ≤ '9' then c.toNat - '0'.toNat
  else if 'a' ≤ c ∧ c ≤ 'f' then c.toNat - 'a'.toNat + 10
  else if 'A' ≤ c ∧ c ≤ 'F' then c.toNat - 'A'.toNat + 10
  else 0

/-- `parseInt(color.substring(i, i+2), 16)` for the two-character slice
starting at index `i`. -/
def parseHexByte (s : String) (i : Nat) : Nat :=
  16 * hexDigitVal (s.toList.getD i '0') + hexDigitVal (s.toList.getD (i + 1) '0')

/-- `n.toString(16)` for a natural number (lowercase hex digits). -/
def natToHexStr (n : Nat) : String :=
  ⟨Nat.toDigits 16 n⟩

/-- `n.toString(16).padStart(2, "0")` as used when re-assembling an
interpolated colour channel. -/
def jsHexByte (n : Int) : String :=
  let core := if n < 0 then "-" ++ natToHexStr (-n).toNat else natToHexStr n.toNat
  if core.length < 2 then "0" ++ core else core

namespace Gradient

/-- A gradient colour stop (`{ color, position }` in
`GradientGenerator.vue`).  The position is a JavaScript number; the field is
generic so the ramp can be evaluated both over `ℚ` (exact, executable) and
over `ℝ` (where the linear projection's trigonometry lives). -/
structure ColorStop (α : Type) where
  color : String
  position : α
deriving DecidableEq

variable {α : Type} [LinearOrderedField α]

/-- Insert a stop into a position-sorted list, keeping earlier stops first on
ties.  Together with `sortStops` this models the stable
`[...stops].sort((a, b) => a.position - b.position)`. -/
def insertStop (s : ColorStop α) : List (ColorStop α) → List (ColorStop α)
  | [] => [s]
  | t :: ts => if s.position ≤ t.position then s :: t :: ts else t :: insertStop s ts

/-- Stable sort of the colour stops by ascending position. -/
def sortStops (stops : List (ColorStop α)) : List (ColorStop α) :=
  stops.foldr insertStop []

/-- The `for`-loop in `getColorAtPosition` that finds the first index `i`
with `sorted[i].position ≤ position ≤ sorted[i+1].position`, defaulting to
`0` when no pair matches. -/
def findStartIndexAux (position : α) : Nat → List (ColorStop α) → Nat
  | i, a :: b :: rest =>
    if a.position ≤ position ∧ position ≤ b.position then i
    else findStartIndexAux position (i + 1) (b :: rest)
  | _, _ => 0

/-- `Math.round` of JavaScript: round half toward positive infinity. -/
def jsRound [FloorRing α] (x : α) : Int :=
  ⌊x + 1 / 2⌋

/-- `interpolateColor(color1, color2, factor)` from `GradientGenerator.vue`:
parse the `#rrggbb` channels, linearly interpolate each channel, round with
`Math.round`, and reassemble the hex string. -/
def interpolateColor [FloorRing α] (color1 color2 : String) (factor : α) : String :=
  let r1 : Int := parseHexByte color1 1
  let g1 : Int := parseHexByte color1 3
  let b1 : Int := parseHexByte color1 5
  let r2 : Int := parseHexByte color2 1
  let g2 : Int := parseHexByte color2 3
  let b2 : Int := parseHexByte color2 5
  let r := jsRound ((r1 : α) + factor * ((r2 : α) - (r1 : α)))
  let g := jsRound ((g1 : α) + factor * ((g2 : α) - (g1 : α)))
  let b := jsRound ((b1 : α) + factor * ((b2 : α) - (b1 : α)))
  "#" ++ jsHexByte r ++ jsHexByte g ++ jsHexByte b

/-- `getColorAtPosition(position)` from `GradientGenerator.vue`: sort the
stops, return the first/last stop colour at or beyond the extreme positions,
otherwise interpolate between the two bracketing stops.  (The app maintains
at least two stops; the dummy stop only pads the out-of-range accesses that
JavaScript would answer with `undefined`.) -/
def getColorAtPosition [FloorRing α] (colorStops : List (ColorStop α)) (position : α) :
    String :=
  let sorted := sortStops colorStops
  let first := sorted.getD 0 ⟨"", 0⟩
  let lastStop := sorted.getLastD ⟨"", 0⟩
  if position ≤ first.position then first.color
  else if lastStop.position ≤ position then lastStop.color
  else
    let startIndex := findStartIndexAux position 0 sorted
    let startStop := sorted.getD startIndex ⟨"", 0⟩
    let endStop := sorted.getD (startIndex + 1) ⟨"", 0⟩
    let factor := (position - startStop.position) / (endStop.position - startStop.position)
    interpolateColor startStop.color endStop.color factor

/-- `convertAngleToCss(angle)` from `GradientGenerator.vue`:
`(angle + 90 + 360) % 360`.  It is applied only when building the CSS
preview string in `cssGradient`. -/
def convertAngleToCss (angle : Int) : Int :=
  (angle + 90 + 360) % 360

/-- The linear-gradient branch of `calculateOptimizedPixels` (for an
in-range scaled point): project `(scaledX, scaledY)` onto the direction
vector of `customAngle` (degrees), scale to `[0,100]`, clamp, and evaluate
the colour-stop ramp.  Note the projection uses `customAngle` itself; no
angle conversion is applied on this path. -/
noncomputable def linearPixelColor (colorStops : List (ColorStop ℝ))
    (customAngle scaledX scaledY : ℝ) : String :=
  let angleRad := customAngle * Real.pi / 180
  let position := (scaledX * Real.cos angleRad + scaledY * Real.sin angleRad) * 100
  let adjustedPosition := max 0 (min 100 position)
  getColorAtPosition colorStops adjustedPosition

end Gradient

namespace Gradient

/-- The two stops of the `red@0`, `blue@100` scenario, over the reals (for
the linear-projection claims). -/
noncomputable def redBlueStops : List (ColorStop ℝ) :=
  [⟨"#ff0000", 0⟩, ⟨"#0000ff", 100⟩]

end Gradient

namespace ControlsApp

/-!
The composable embedded in `Controls.vue` (the serpentine variant of
`useWledDraw`).  Its `formattedColors` computed property re-orders the
row-major pixel buffer into the matrix's serpentine wiring order before
serialising it.
-/

/-- The serpentine re-ordering loop of `formattedColors`: for each row,
`slice` the row out of the row-major buffer and append it, reversed for
odd-indexed rows. -/
def serpentineOrder (gridWidth gridHeight : Nat) (pixelData : List String) : List String :=
  (List.range gridHeight).foldl
    (fun serp y =>
      let rowStart := y * gridWidth
      let rowColors := (pixelData.drop rowStart).take gridWidth
      if y % 2 ≠ 0 then serp ++ rowColors.reverse else serp ++ rowColors)
    []

/-- `formattedColors` from the `Controls.vue` composable: quote each colour
of the serpentine order, join with commas, and strip every `#`. -/
def formattedColors (gridWidth gridHeight : Nat) (pixelData : List String) : String :=
  String.replace
    (String.intercalate ","
      ((serpentineOrder gridWidth gridHeight pixelData).map (fun color => "\"" ++ color ++ "\"")))
    "#" ""

/-- The row a given grid row contributes to the serpentine order (the loop
body of `serpentineOrder`, as a function of the row index). -/
def serpentineRow (gridWidth : Nat) (pixelData : List String) (y : Nat) : List String :=
  let rowColors := (pixelData.drop (y * gridWidth)).take gridWidth
  if y % 2 ≠ 0 then rowColors.reverse else rowColors

end ControlsApp

namespace WledDraw

/-!
The debounced `useWledDraw` composable (the feature-complete variant with
`batchUpdatePixels`, `applyPixelArray` and `debouncedSendToWled`).  The
reactive refs become fields of `State`; `localStorage` becomes the
`stored…` fields; the single-shot debounce timer becomes the boolean
`debounceTimer` whose expiry is the explicit `fireTimer` transition; each
successful `fetch` POST is logged in `sends`.  The device GET path, URL and
colour-palette settings are outside the claims and are not modelled.
-/

/-- `HistoryAction` from the composable: a `draw` records the previous
colour of one cell, a `clear` records the whole previous buffer. -/
inductive HistoryAction where
  | draw (index : Nat) (color : String)
  | clear (pixels : List String)
deriving DecidableEq

/-- The state of one composable instance plus its persistence and network
collaborators. -/
structure State where
  gridWidth : Nat
  gridHeight : Nat
  pixelData : List String
  history : List HistoryAction
  storedPixelData : List String
  storedHistory : Option (List HistoryAction)
  pixelDataChanged : Bool
  isUpdatePending : Bool
  debounceTimer : Bool
  ignoreApi : Bool
  sends : List String
deriving DecidableEq

/-- JavaScript `array[i] = v` on the pixel buffer: in-range writes update
the slot, past-the-end writes extend the array (the intermediate holes,
which read back as `undefined`, are represented by `""`, the other falsy
string). -/
def jsArraySet (l : List String) (i : Nat) (v : String) : List String :=
  if i < l.length then l.set i v
  else l ++ List.replicate (i - l.length) "" ++ [v]

/-- `formattedColors` of this variant: row-major order, with `undefined`/
empty cells replaced by black, quoted, comma-joined, `#` stripped. -/
def formattedColors (pixelData : List String) : String :=
  String.replace
    (String.intercalate ","
      (pixelData.map (fun color => "\"" ++ (if color = "" then "#000000" else color) ++ "\"")))
    "#" ""

/-- `wledJson`: the POST payload built from the current pixel buffer. -/
def wledJson (s : State) : String :=
  "\x7b\"on\": true,\"bri\": 230, \"v\": true, \"seg\": \x7b\"i\":[" ++
    formattedColors s.pixelData ++ "]\x7d\x7d"

/-- `maxHistoryLength`: the history capacity. -/
def maxHistoryLength : Nat := 50

/-- The pure content of `saveToHistory`: push the action, then drop the
oldest entry if the log now exceeds `maxHistoryLength`. -/
def saveToHistoryList (h : List HistoryAction) (action : HistoryAction) : List HistoryAction :=
  let pushed := h ++ [action]
  if maxHistoryLength < pushed.length then pushed.tail else pushed

/-- `saveToHistory(action)`: update the log and persist it
(`localStorage.drawHistory`). -/
def saveToHistory (s : State) (action : HistoryAction) : State :=
  let h := saveToHistoryList s.history action
  { s with history := h, storedHistory := some h }

/-- `saveToLocalStorage()`: persist the pixel buffer (the other persisted
scalars are outside the claims). -/
def saveToLocalStorage (s : State) : State :=
  { s with storedPixelData := s.pixelData }

/-- `debouncedSendToWled()`: mark a pending change and start the timer
unless one is already running.  No send happens here; the send belongs to
the timer expiry (`fireTimer`). -/
def debouncedSendToWled (s : State) : State :=
  if s.ignoreApi then s
  else
    let s := { s with pixelDataChanged := true }
    if s.debounceTimer then s else { s with debounceTimer := true }

/-- `sendToWledImmediate()`: POST the current payload (successful-response
path: the pending flag is cleared by the response callback). -/
def sendToWledImmediate (s : State) : State :=
  if s.ignoreApi then s
  else { s with sends := s.sends ++ [wledJson s], pixelDataChanged := false }

/-- Expiry of the debounce timer (the `setTimeout` callback together with
its `requestAnimationFrame` continuation): if a change is pending, send and
release the timer handle; otherwise just release it. -/
def fireTimer (s : State) : State :=
  if s.debounceTimer = false then s
  else if s.pixelDataChanged then
    { sendToWledImmediate s with isUpdatePending := false, debounceTimer := false }
  else { s with debounceTimer := false }

/-- `updatePixel(index, newColor)`: no-op when the colour is unchanged;
otherwise record the previous colour, write the cell, flag the change and
persist. -/
def updatePixel (s : State) (index : Nat) (newColor : String) : State :=
  if s.pixelData[index]? = some newColor then s
  else
    let s := saveToHistory s (.draw index (s.pixelData.getD index ""))
    let s := { s with pixelData := jsArraySet s.pixelData index newColor,
                      pixelDataChanged := true }
    saveToLocalStorage s

/-- `undo()`: no-op on an empty log; otherwise pop the latest action, apply
its inverse to the buffer, persist, and schedule a send. -/
def undo (s : State) : State :=
  match s.history.getLast? with
  | none => s
  | some lastAction =>
    let h := s.history.dropLast
    let cells :=
      match lastAction with
      | .draw index color => jsArraySet s.pixelData index color
      | .clear pixels => pixels
    let s := { s with history := h, storedHistory := some h, pixelData := cells,
                      pixelDataChanged := true }
    debouncedSendToWled (saveToLocalStorage s)

/-- `clearScreen()`: snapshot the buffer into the log, fill the grid with
black, persist and schedule a send. -/
def clearScreen (s : State) : State :=
  let s := saveToHistory s (.clear s.pixelData)
  let s := { s with pixelData := List.replicate (s.gridWidth * s.gridHeight) "#000000",
                    pixelDataChanged := true }
  debouncedSendToWled (saveToLocalStorage s)

/-- `setupGrid()`: rebuild the buffer at the current dimensions from the
persisted pixel data (missing or empty slots default to black), then reload
the persisted history if present. -/
def setupGrid (s : State) : State :=
  let gridSize := s.gridWidth * s.gridHeight
  let localData := s.storedPixelData
  let cells := (List.range gridSize).map (fun i =>
    match localData[i]? with
    | some c => if c = "" then "#000000" else c
    | none => "#000000")
  let s := { s with pixelData := cells }
  match s.storedHistory with
  | some h => { s with history := h }
  | none => s

/-- A dimension change: the watcher on `gridWidth`/`gridHeight` runs
`setupGrid` on the new dimensions. -/
def resize (s : State) (w h : Nat) : State :=
  setupGrid { s with gridWidth := w, gridHeight := h }

/-- `batchUpdatePixels(indices, newColor)`: per index, if in range and
actually changing, record and write; then flag, persist once, and schedule
a send. -/
def batchUpdatePixels (s : State) (indices : List Nat) (newColor : String) : State :=
  let s := indices.foldl
    (fun st index =>
      if index < st.pixelData.length ∧ st.pixelData[index]? ≠ some newColor then
        let st := saveToHistory st (.draw index (st.pixelData.getD index ""))
        { st with pixelData := jsArraySet st.pixelData index newColor }
      else st)
    s
  let s := { s with pixelDataChanged := true }
  debouncedSendToWled (saveToLocalStorage s)

/-- `applyPixelArray(newPixels)`: reject empty or wrongly-sized arrays;
otherwise snapshot into the log, replace the buffer, flag, persist and
schedule a send. -/
def applyPixelArray (s : State) (newPixels : List String) : State :=
  if newPixels.length = 0 ∨ newPixels.length ≠ s.pixelData.length then s
  else
    let s := saveToHistory s (.clear s.pixelData)
    let s := { s with pixelData := newPixels, pixelDataChanged := true }
    debouncedSendToWled (saveToLocalStorage s)

/-- `flushChanges()`: cancel any running timer and send immediately if a
change is pending. -/
def flushChanges (s : State) : State :=
  let s := { s with debounceTimer := false }
  if s.pixelDataChanged then sendToWledImmediate s else s

/-- The events that can occur within one debounce window: a
`debouncedSendToWled()` call, or a pixel edit. -/
inductive Ev where
  | schedule
  | draw (index : Nat) (color : String)
deriving DecidableEq

/-- One event of the single-threaded event loop. -/
def step (s : State) : Ev → State
  | .schedule => debouncedSendToWled s
  | .draw i c => updatePixel s i c

/-- Run a sequence of events. -/
def run (s : State) (evs : List Ev) : State :=
  evs.foldl step s

/-- The pixel-buffer dimension invariant of the spec:
`cells.length === width*height`. -/
def dimsInvariant (s : State) : Prop :=
  s.pixelData.length = s.gridWidth * s.gridHeight

instance (s : State) : Decidable (dimsInvariant s) :=
  inferInstanceAs (Decidable (_ = _))

/-- A small concrete state used by the concrete scenarios: a fresh 1×1 grid
holding one white pixel, nothing persisted yet, device connected. -/
def exState : State :=
  { gridWidth := 1, gridHeight := 1, pixelData := ["#ffffff"], history := [],
    storedPixelData := ["#ffffff"], storedHistory := none, pixelDataChanged := false,
    isUpdatePending := false, debounceTimer := false, ignoreApi := false, sends := [] }

/-- A 1×1 state with the device ignored, for the history-capacity scenario
(so the debounce path stays inert). -/
def exStateOffline : State :=
  { exState with pixelData := ["0"], storedPixelData := ["0"], ignoreApi := true }

/-- The history-capacity scenario: 51 successive single-pixel edits on a
1×1 grid, colouring the cell `"1"`, `"2"`, …, `"51"` in turn (starting from
`"0"`). -/
def scenario51 : State :=
  (List.range 51).foldl (fun st k => updatePixel st 0 (Nat.repr (k + 1))) exStateOffline

/-- The capacity scenario after 50 subsequent undos. -/
def scenario51then50undos : State :=
  (List.range 50).foldl (fun st _ => undo st) scenario51

end WledDraw

/-!
## Theorems

Helper lemmas first, then one theorem per claim (with a witness where the
claim's theorem carries hypotheses).
-/

namespace Gradient

lemma sortStops_redBlue :
    sortStops (α := ℝ) [⟨"#ff0000", 0⟩, ⟨"#0000ff", 100⟩] =
      [⟨"#ff0000", 0⟩, ⟨"#0000ff", 100⟩] := by
  norm_num [sortStops, insertStop]

lemma getColor_redBlue_lo (p : ℝ) (hp : p ≤ 0) :
    getColorAtPosition redBlueStops p = "#ff0000" := by
  simp [getColorAtPosition, redBlueStops, sortStops_redBlue, hp]

lemma getColor_redBlue_hi (p : ℝ) (h0 : ¬ p ≤ 0) (h100 : 100 ≤ p) :
    getColorAtPosition redBlueStops p = "#0000ff" := by
  simp [getColorAtPosition, redBlueStops, sortStops_redBlue, h0, h100]

/-- At `customAngle = 0` the projection of `calculateOptimizedPixels`
evaluates the ramp at `100 * scaledX`: it depends on the x-coordinate only. -/
lemma linearPixelColor_angle0 (stops : List (ColorStop ℝ)) (nx ny : ℝ)
    (h0 : 0 ≤ nx) (h1 : nx ≤ 1) :
    linearPixelColor stops 0 nx ny = getColorAtPosition stops (100 * nx) := by
  have harg : (0 : ℝ) * Real.pi / 180 = 0 := by ring
  have hle : nx * 100 ≤ 100 := by nlinarith
  have hge : (0 : ℝ) ≤ nx * 100 := by nlinarith
  simp only [linearPixelColor, harg, Real.cos_zero, Real.sin_zero, mul_one, mul_zero, add_zero]
  rw [min_eq_right hle, max_eq_right hge, mul_comm]

/-- At `customAngle = 90` the projection evaluates the ramp at
`100 * scaledY`: it depends on the y-coordinate only. -/
lemma linearPixelColor_angle90 (stops : List (ColorStop ℝ)) (nx ny : ℝ)
    (h0 : 0 ≤ ny) (h1 : ny ≤ 1) :
    linearPixelColor stops 90 nx ny = getColorAtPosition stops (100 * ny) := by
  have harg : (90 : ℝ) * Real.pi / 180 = Real.pi / 2 := by ring
  have hle : ny * 100 ≤ 100 := by nlinarith
  have hge : (0 : ℝ) ≤ ny * 100 := by nlinarith
  simp only [linearPixelColor, harg, Real.cos_pi_div_two, Real.sin_pi_div_two, mul_one,
    mul_zero, zero_add]
  rw [min_eq_right hle, max_eq_right hge, mul_comm]

/-- C2, counterexample.  With stops `red@0, blue@100` and `angleDeg = 0`,
the point `(scaledX, scaledY) = (1, 0)` — the top-right grid corner, on the
top edge — receives the LAST stop's colour (blue), and the point `(0, 1)` —
the bottom-left corner, on the bottom edge — receives the FIRST stop's
colour (red).  This refutes the claim that at `angleDeg = 0` the first stop
goes to the points nearest the top edge and the last stop to those nearest
the bottom edge. -/
theorem C2_counterexample :
    linearPixelColor redBlueStops 0 1 0 = "#0000ff" ∧
    linearPixelColor redBlueStops 0 0 1 = "#ff0000" ∧
    ("#0000ff" : String) ≠ "#ff0000" := by
  refine ⟨?_, ?_, by decide⟩
  · rw [linearPixelColor_angle0 _ _ _ (by norm_num) (by norm_num)]
    exact getColor_redBlue_hi _ (by norm_num) (by norm_num)
  · rw [linearPixelColor_angle0 _ _ _ (by norm_num) (by norm_num)]
    exact getColor_redBlue_lo _ (by norm_num)

/-- C2, amended.  The pixel-evaluation path projects with `customAngle`
itself, so at `angleDeg = 0` the ramp position is `100 * scaledX`: the first
stop is assigned to the points nearest the LEFT edge (`x = 0`) and the last
stop to the points nearest the RIGHT edge (`x = 1`).  The
`displayAngle = (angleDeg + 90) mod 360` conversion (`convertAngleToCss`,
which maps `0` to `90`) is applied only to the CSS preview string, not to
the pixel projection.  The top-edge-to-bottom-edge behaviour the claim
describes occurs at `angleDeg = 90`, where the ramp position is
`100 * scaledY`. -/
theorem C2_amended (nx ny : ℝ) (hx0 : 0 ≤ nx) (hx1 : nx ≤ 1) (hy0 : 0 ≤ ny) (hy1 : ny ≤ 1) :
    linearPixelColor redBlueStops 0 nx ny = getColorAtPosition redBlueStops (100 * nx) ∧
    linearPixelColor redBlueStops 0 0 ny = "#ff0000" ∧
    linearPixelColor redBlueStops 0 1 ny = "#0000ff" ∧
    linearPixelColor redBlueStops 90 nx ny = getColorAtPosition redBlueStops (100 * ny) ∧
    linearPixelColor redBlueStops 90 nx 0 = "#ff0000" ∧
    convertAngleToCss 0 = 90 := by
  refine ⟨linearPixelColor_angle0 _ _ _ hx0 hx1, ?_, ?_,
    linearPixelColor_angle90 _ _ _ hy0 hy1, ?_, by decide⟩
  · rw [linearPixelColor_angle0 _ _ _ (by norm_num) (by norm_num)]
    exact getColor_redBlue_lo _ (by norm_num)
  · rw [linearPixelColor_angle0 _ _ _ (by norm_num) (by norm_num)]
    exact getColor_redBlue_hi _ (by norm_num) (by norm_num)
  · rw [linearPixelColor_angle90 _ _ _ (by norm_num) (by norm_num)]
    exact getColor_redBlue_lo _ (by norm_num)

/-- Witness for `C2_amended` at the concrete midpoint `(1/2, 1/2)`. -/
theorem C2_amended_witness :
    (0 : ℝ) ≤ 1/2 ∧ (1/2 : ℝ) ≤ 1 ∧
    linearPixelColor redBlueStops 0 0 (1/2) = "#ff0000" ∧
    convertAngleToCss 0 = 90 := by
  refine ⟨by norm_num, by norm_num, ?_, ?_⟩
  · exact (C2_amended (1/2) (1/2) (by norm_num) (by norm_num) (by norm_num) (by norm_num)).2.1
  · exact (C2_amended (1/2) (1/2) (by norm_num) (by norm_num) (by norm_num)
      (by norm_num)).2.2.2.2.2

/-- C3, counterexample.  With stops `red@0, blue@100`, the ramp at position
50 does NOT yield `#7f007f`: each interpolated channel is
`Math.round(127.5) = 128` (round half UP), not 127. -/
theorem C3_counterexample :
    getColorAtPosition (α := ℚ) [⟨"#ff0000", 0⟩, ⟨"#0000ff", 100⟩] 50 ≠ "#7f007f" := by
  have h1 : parseHexByte "#ff0000" 1 = 255 := by decide
  have h2 : parseHexByte "#ff0000" 3 = 0 := by decide
  have h3 : parseHexByte "#ff0000" 5 = 0 := by decide
  have h4 : parseHexByte "#0000ff" 1 = 0 := by decide
  have h5 : parseHexByte "#0000ff" 3 = 0 := by decide
  have h6 : parseHexByte "#0000ff" 5 = 255 := by decide
  have hb80 : jsHexByte 128 = "80" := by decide
  have hb00 : jsHexByte 0 = "00" := by decide
  norm_num [getColorAtPosition, sortStops, insertStop, findStartIndexAux, interpolateColor,
    jsRound, h1, h2, h3, h4, h5, h6, hb80, hb00]
  decide

/-- C3, amended.  With stops `red@0, blue@100`, the ramp at position 50
yields exactly `#800080`: the midpoint of each interpolated channel is
127.5, and `Math.round` rounds half up to 128 = `0x80`. -/
theorem C3_amended :
    getColorAtPosition (α := ℚ) [⟨"#ff0000", 0⟩, ⟨"#0000ff", 100⟩] 50 = "#800080" := by
  have h1 : parseHexByte "#ff0000" 1 = 255 := by decide
  have h2 : parseHexByte "#ff0000" 3 = 0 := by decide
  have h3 : parseHexByte "#ff0000" 5 = 0 := by decide
  have h4 : parseHexByte "#0000ff" 1 = 0 := by decide
  have h5 : parseHexByte "#0000ff" 3 = 0 := by decide
  have h6 : parseHexByte "#0000ff" 5 = 255 := by decide
  have hb80 : jsHexByte 128 = "80" := by decide
  have hb00 : jsHexByte 0 = "00" := by decide
  norm_num [getColorAtPosition, sortStops, insertStop, findStartIndexAux, interpolateColor,
    jsRound, h1, h2, h3, h4, h5, h6, hb80, hb00]
  decide

end Gradient

namespace ControlsApp

lemma rowSlice_length (w h : Nat) (cells : List String) (hlen : cells.length = w * h)
    (y : Nat) (hy : y < h) : ((cells.drop (y * w)).take w).length = w := by
  have h2 : y * w + w ≤ w * h := by
    have h1 : (y + 1) * w ≤ h * w := Nat.mul_le_mul_right w (Nat.succ_le_of_lt hy)
    calc y * w + w = (y + 1) * w := by ring
    _ ≤ h * w := h1
    _ = w * h := Nat.mul_comm h w
  have h3 : w ≤ cells.length - y * w := by
    rw [hlen]
    exact Nat.le_sub_of_add_le (by omega)
  simp [List.length_take, List.length_drop, Nat.min_eq_left h3]

lemma serpentineRow_length (w h : Nat) (cells : List String) (hlen : cells.length = w * h)
    (y : Nat) (hy : y < h) : (serpentineRow w cells y).length = w := by
  unfold serpentineRow
  split
  · simpa using rowSlice_length w h cells hlen y hy
  · exact rowSlice_length w h cells hlen y hy

lemma rowSlice_getElem? (w : Nat) (cells : List String) (y x : Nat) (hx : x < w) :
    ((cells.drop (y * w)).take w)[x]? = cells[y * w + x]? := by
  rw [List.getElem?_take, if_pos hx, List.getElem?_drop]

lemma serpentineRow_getElem? (w h : Nat) (cells : List String) (hlen : cells.length = w * h)
    (y x : Nat) (hy : y < h) (hx : x < w) :
    (serpentineRow w cells y)[x]? =
      cells[y * w + (if y % 2 = 1 then w - 1 - x else x)]? := by
  have hrl := rowSlice_length w h cells hlen y hy
  unfold serpentineRow
  by_cases hpar : y % 2 ≠ 0
  · have hpar1 : y % 2 = 1 := by omega
    rw [if_pos hpar, List.getElem?_reverse (by rw [hrl]; exact hx), hrl,
      rowSlice_getElem? w cells y (w - 1 - x) (by omega), if_pos hpar1]
  · have hpar1 : ¬ y % 2 = 1 := by omega
    rw [if_neg hpar, rowSlice_getElem? w cells y x hx, if_neg hpar1]

lemma flatten_blocks_getElem? (w : Nat) (blocks : List (List String))
    (hw : ∀ b ∈ blocks, b.length = w) (i j : Nat) (hj : j < w) :
    blocks.flatten[i * w + j]? = (blocks.getD i [])[j]? := by
  induction blocks generalizing i with
  | nil => simp
  | cons b bs ih =>
    have hb : b.length = w := hw b (by simp)
    have hw' : ∀ x ∈ bs, x.length = w := fun x hx => hw x (by simp [hx])
    cases i with
    | zero =>
      rw [List.flatten_cons, Nat.zero_mul, Nat.zero_add, List.getElem?_append,
        if_pos (by rw [hb]; exact hj)]
      rfl
    | succ i =>
      have hidx : (i + 1) * w + j = b.length + (i * w + j) := by rw [hb]; ring
      rw [List.flatten_cons, hidx, List.getElem?_append_right (Nat.le_add_right _ _),
        Nat.add_sub_cancel_left]
      exact ih hw' i

lemma serpentineOrder_body (w : Nat) (cells : List String) (acc : List String) (y : Nat) :
    (if y % 2 ≠ 0 then acc ++ ((cells.drop (y * w)).take w).reverse
     else acc ++ (cells.drop (y * w)).take w) = acc ++ serpentineRow w cells y := by
  unfold serpentineRow
  split <;> rfl

lemma serpentineOrder_eq_flatten (w h : Nat) (cells : List String) :
    serpentineOrder w h cells = ((List.range h).map (serpentineRow w cells)).flatten := by
  suffices aux : ∀ (l : List Nat) (acc : List String),
      l.foldl (fun serp y =>
        let rowStart := y * w
        let rowColors := (cells.drop rowStart).take w
        if y % 2 ≠ 0 then serp ++ rowColors.reverse else serp ++ rowColors) acc
      = acc ++ (l.map (serpentineRow w cells)).flatten by
    simpa [serpentineOrder] using aux (List.range h) []
  intro l
  induction l with
  | nil => intro acc; simp
  | cons y ys ih =>
    intro acc
    simp only [List.foldl_cons, List.map_cons, List.flatten_cons]
    rw [serpentineOrder_body w cells acc y, ih, List.append_assoc]

lemma serpentineOrder_length (w h : Nat) (cells : List String) (hlen : cells.length = w * h) :
    (serpentineOrder w h cells).length = h * w := by
  rw [serpentineOrder_eq_flatten, List.length_flatten, List.map_map]
  have hrep : (List.range h).map (List.length ∘ serpentineRow w cells) = List.replicate h w := by
    refine List.eq_replicate_iff.2 ⟨by simp, ?_⟩
    intro b hb
    rcases List.mem_map.1 hb with ⟨y, hy, rfl⟩
    exact serpentineRow_length w h cells hlen y (List.mem_range.1 hy)
  rw [hrep, List.sum_replicate, smul_eq_mul]

/-- C1.  The serpentine encoder lists the cells row by row with every
odd-indexed row (0-based) reversed and even-indexed rows unchanged: for a
`w × h` row-major buffer, physical position `y*w + x` holds the cell at
row-major index `y*w + x` for even `y` and `y*w + (w-1-x)` for odd `y`; in
particular the 2×2 grid `[red, green, blue, white]` encodes to the physical
order `[red, green, white, blue]`. -/
theorem C1_serpentine_encoder (w h : Nat) (cells : List String) (hlen : cells.length = w * h) :
    (serpentineOrder w h cells).length = h * w ∧
    (∀ y x, y < h → x < w →
      (serpentineOrder w h cells)[y * w + x]? =
        cells[y * w + (if y % 2 = 1 then w - 1 - x else x)]?) ∧
    serpentineOrder 2 2 ["#ff0000", "#00ff00", "#0000ff", "#ffffff"] =
      ["#ff0000", "#00ff00", "#ffffff", "#0000ff"] := by
  refine ⟨serpentineOrder_length w h cells hlen, ?_, by decide⟩
  intro y x hy hx
  rw [serpentineOrder_eq_flatten, flatten_blocks_getElem? w _ ?_ y x hx]
  · have hgetD : ((List.range h).map (serpentineRow w cells)).getD y [] = serpentineRow w cells y := by
      rw [List.getD_eq_getElem?_getD, List.getElem?_map, List.getElem?_range hy]
      rfl
    rw [hgetD]
    exact serpentineRow_getElem? w h cells hlen y x hy hx
  · intro b hb
    rcases List.mem_map.1 hb with ⟨z, hz, rfl⟩
    exact serpentineRow_length w h cells hlen z (List.mem_range.1 hz)

/-- Witness for `C1_serpentine_encoder` on the concrete 2×2 grid. -/
theorem C1_serpentine_encoder_witness :
    (serpentineOrder 2 2 ["#ff0000", "#00ff00", "#0000ff", "#ffffff"]).length = 2 * 2 ∧
    (serpentineOrder 2 2 ["#ff0000", "#00ff00", "#0000ff", "#ffffff"])[1 * 2 + 0]? =
      ["#ff0000", "#00ff00", "#0000ff", "#ffffff"][1 * 2 + (if 1 % 2 = 1 then 2 - 1 - 0 else 0)]? := by
  have H := C1_serpentine_encoder 2 2 ["#ff0000", "#00ff00", "#0000ff", "#ffffff"] (by decide)
  exact ⟨H.1, H.2.1 1 0 (by decide) (by decide)⟩

end ControlsApp

namespace WledDraw

lemma set_getD_self (l : List String) (i : Nat) (h : i < l.length) (d : String) :
    l.set i (l.getD i d) = l := by
  induction l generalizing i with
  | nil => simp at h
  | cons x t ih =>
    cases i with
    | zero => simp
    | succ i => simpa using ih i (by simpa using h)

lemma jsArraySet_of_lt (l : List String) (i : Nat) (v : String) (h : i < l.length) :
    jsArraySet l i v = l.set i v := if_pos h

lemma length_jsArraySet_of_lt (l : List String) (i : Nat) (v : String) (h : i < l.length) :
    (jsArraySet l i v).length = l.length := by
  rw [jsArraySet_of_lt l i v h, List.length_set]

lemma jsArraySet_undo_jsArraySet (l : List String) (i : Nat) (c : String)
    (h : i < l.length) :
    jsArraySet (jsArraySet l i c) i (l.getD i "") = l := by
  rw [jsArraySet_of_lt l i c h,
    jsArraySet_of_lt _ i _ (by rw [List.length_set]; exact h),
    List.set_set, set_getD_self l i h]

lemma saveToHistoryList_ne_nil (h : List HistoryAction) (a : HistoryAction) :
    saveToHistoryList h a ≠ [] := by
  unfold saveToHistoryList maxHistoryLength
  dsimp only
  split
  · rename_i hlen
    cases h with
    | nil => simp at hlen
    | cons x t => simp
  · simp

lemma saveToHistoryList_getLast? (h : List HistoryAction) (a : HistoryAction) :
    (saveToHistoryList h a).getLast? = some a := by
  unfold saveToHistoryList maxHistoryLength
  dsimp only
  split
  · rename_i hlen
    cases h with
    | nil => simp at hlen
    | cons x t => simp [List.getLast?_concat]
  · exact List.getLast?_concat h

lemma saveToLocalStorage_pixelData (s : State) :
    (saveToLocalStorage s).pixelData = s.pixelData := rfl

lemma saveToLocalStorage_gridWidth (s : State) :
    (saveToLocalStorage s).gridWidth = s.gridWidth := rfl

lemma saveToLocalStorage_gridHeight (s : State) :
    (saveToLocalStorage s).gridHeight = s.gridHeight := rfl

lemma saveToLocalStorage_history (s : State) :
    (saveToLocalStorage s).history = s.history := rfl

lemma debouncedSendToWled_pixelData (s : State) :
    (debouncedSendToWled s).pixelData = s.pixelData := by
  unfold debouncedSendToWled
  split
  · rfl
  · dsimp only
    split <;> rfl

lemma debouncedSendToWled_gridWidth (s : State) :
    (debouncedSendToWled s).gridWidth = s.gridWidth := by
  unfold debouncedSendToWled
  split
  · rfl
  · dsimp only
    split <;> rfl

lemma debouncedSendToWled_gridHeight (s : State) :
    (debouncedSendToWled s).gridHeight = s.gridHeight := by
  unfold debouncedSendToWled
  split
  · rfl
  · dsimp only
    split <;> rfl

lemma debouncedSendToWled_history (s : State) :
    (debouncedSendToWled s).history = s.history := by
  unfold debouncedSendToWled
  split
  · rfl
  · dsimp only
    split <;> rfl

lemma debouncedSendToWled_sends (s : State) :
    (debouncedSendToWled s).sends = s.sends := by
  unfold debouncedSendToWled
  split
  · rfl
  · dsimp only
    split <;> rfl

lemma debouncedSendToWled_ignoreApi (s : State) :
    (debouncedSendToWled s).ignoreApi = s.ignoreApi := by
  unfold debouncedSendToWled
  split
  · rfl
  · dsimp only
    split <;> rfl

lemma updatePixel_history_of_change (s : State) (i : Nat) (c : String)
    (hne : ¬ s.pixelData[i]? = some c) :
    (updatePixel s i c).history =
      saveToHistoryList s.history (.draw i (s.pixelData.getD i "")) := by
  unfold updatePixel
  rw [if_neg hne]
  rfl

lemma updatePixel_pixelData_of_change (s : State) (i : Nat) (c : String)
    (hne : ¬ s.pixelData[i]? = some c) :
    (updatePixel s i c).pixelData = jsArraySet s.pixelData i c := by
  unfold updatePixel
  rw [if_neg hne]
  rfl

lemma updatePixel_gridWidth (s : State) (i : Nat) (c : String) :
    (updatePixel s i c).gridWidth = s.gridWidth := by
  unfold updatePixel
  split <;> rfl

lemma updatePixel_gridHeight (s : State) (i : Nat) (c : String) :
    (updatePixel s i c).gridHeight = s.gridHeight := by
  unfold updatePixel
  split <;> rfl

lemma updatePixel_sends (s : State) (i : Nat) (c : String) :
    (updatePixel s i c).sends = s.sends := by
  unfold updatePixel
  split <;> rfl

lemma updatePixel_ignoreApi (s : State) (i : Nat) (c : String) :
    (updatePixel s i c).ignoreApi = s.ignoreApi := by
  unfold updatePixel
  split <;> rfl

lemma undo_of_getLast?_draw (s : State) (i : Nat) (c : String)
    (hgl : s.history.getLast? = some (.draw i c)) :
    (undo s).pixelData = jsArraySet s.pixelData i c ∧
    (undo s).gridWidth = s.gridWidth ∧
    (undo s).gridHeight = s.gridHeight := by
  unfold undo
  rw [hgl]
  dsimp only
  refine ⟨?_, ?_, ?_⟩
  · rw [debouncedSendToWled_pixelData, saveToLocalStorage_pixelData]
  · rw [debouncedSendToWled_gridWidth, saveToLocalStorage_gridWidth]
  · rw [debouncedSendToWled_gridHeight, saveToLocalStorage_gridHeight]

lemma undo_of_getLast?_clear (s : State) (ps : List String)
    (hgl : s.history.getLast? = some (.clear ps)) :
    (undo s).pixelData = ps ∧
    (undo s).gridWidth = s.gridWidth ∧
    (undo s).gridHeight = s.gridHeight := by
  unfold undo
  rw [hgl]
  dsimp only
  refine ⟨?_, ?_, ?_⟩
  · rw [debouncedSendToWled_pixelData, saveToLocalStorage_pixelData]
  · rw [debouncedSendToWled_gridWidth, saveToLocalStorage_gridWidth]
  · rw [debouncedSendToWled_gridHeight, saveToLocalStorage_gridHeight]

lemma clearScreen_history (s : State) :
    (clearScreen s).history = saveToHistoryList s.history (.clear s.pixelData) := by
  unfold clearScreen
  rw [debouncedSendToWled_history, saveToLocalStorage_history]
  rfl

/-- C9.  When the cell at index `i` already holds colour `c`,
`updatePixel(i, c)` is a complete no-op: the state (buffer, history,
pending-change flag, persistence, everything) is unchanged. -/
theorem C9_updatePixel_noop (s : State) (i : Nat) (c : String)
    (h : s.pixelData[i]? = some c) :
    updatePixel s i c = s := by
  unfold updatePixel
  rw [if_pos h]

/-- Witness for `C9_updatePixel_noop` on a concrete 1×1 state. -/
theorem C9_updatePixel_noop_witness :
    exState.pixelData[0]? = some "#ffffff" ∧
    updatePixel exState 0 "#ffffff" = exState :=
  ⟨by decide, C9_updatePixel_noop exState 0 "#ffffff" (by decide)⟩

/-- C6.  A single recorded `Draw` edit at an in-range index `i` followed by
`undo()` restores the buffer exactly (the pre-edit colour at `i` and every
other cell), and the grid dimensions are unchanged. -/
theorem C6_undo_single_draw (s : State) (i : Nat) (c : String)
    (hi : i < s.pixelData.length) (hne : ¬ s.pixelData[i]? = some c) :
    (undo (updatePixel s i c)).pixelData = s.pixelData ∧
    (undo (updatePixel s i c)).gridWidth = s.gridWidth ∧
    (undo (updatePixel s i c)).gridHeight = s.gridHeight := by
  have hgl : (updatePixel s i c).history.getLast? =
      some (.draw i (s.pixelData.getD i "")) := by
    rw [updatePixel_history_of_change s i c hne, saveToHistoryList_getLast?]
  have hu := undo_of_getLast?_draw (updatePixel s i c) i (s.pixelData.getD i "") hgl
  refine ⟨?_, ?_, ?_⟩
  · rw [hu.1, updatePixel_pixelData_of_change s i c hne,
      jsArraySet_undo_jsArraySet s.pixelData i c hi]
  · rw [hu.2.1, updatePixel_gridWidth]
  · rw [hu.2.2, updatePixel_gridHeight]

/-- Witness for `C6_undo_single_draw` on a concrete 1×1 state. -/
theorem C6_undo_single_draw_witness :
    (0 < exState.pixelData.length ∧ ¬ exState.pixelData[0]? = some "#123456") ∧
    (undo (updatePixel exState 0 "#123456")).pixelData = exState.pixelData ∧
    (undo (updatePixel exState 0 "#123456")).gridWidth = exState.gridWidth ∧
    (undo (updatePixel exState 0 "#123456")).gridHeight = exState.gridHeight :=
  ⟨⟨by decide, by decide⟩, C6_undo_single_draw exState 0 "#123456" (by decide) (by decide)⟩

/-- C7.  `undo()` immediately after `clearScreen()` restores the buffer
element for element to the snapshot taken just before the clear, and
`undo()` on an empty history stack is a complete no-op. -/
theorem C7_undo_clear_and_empty_noop (s : State) :
    (undo (clearScreen s)).pixelData = s.pixelData ∧
    (s.history = [] → undo s = s) := by
  constructor
  · have hgl : (clearScreen s).history.getLast? = some (.clear s.pixelData) := by
      rw [clearScreen_history, saveToHistoryList_getLast?]
    exact (undo_of_getLast?_clear (clearScreen s) s.pixelData hgl).1
  · intro h
    have hnone : s.history.getLast? = none := by rw [h]; rfl
    unfold undo
    rw [hnone]

/-- Witness for `C7_undo_clear_and_empty_noop` on a concrete 1×1 state
(whose history is empty, so the no-op conjunct is discharged at it too). -/
theorem C7_undo_clear_and_empty_noop_witness :
    (undo (clearScreen exState)).pixelData = exState.pixelData ∧
    undo exState = exState :=
  ⟨(C7_undo_clear_and_empty_noop exState).1,
    (C7_undo_clear_and_empty_noop exState).2 rfl⟩

end WledDraw

namespace WledDraw

lemma saveToHistoryList_length_le (h : List HistoryAction) (a : HistoryAction)
    (hle : h.length ≤ 50) : (saveToHistoryList h a).length ≤ 50 := by
  unfold saveToHistoryList maxHistoryLength
  dsimp only
  split
  · rename_i hlen
    simp only [List.length_append, List.length_cons, List.length_nil] at hlen
    simp only [List.length_tail, List.length_append, List.length_cons, List.length_nil]
    omega
  · rename_i hlen
    simp only [List.length_append, List.length_cons, List.length_nil] at hlen ⊢
    omega

lemma saveToHistoryList_of_full (h : List HistoryAction) (a : HistoryAction)
    (hfull : h.length = 50) : saveToHistoryList h a = h.tail ++ [a] := by
  unfold saveToHistoryList maxHistoryLength
  dsimp only
  rw [if_pos (by simp [hfull])]
  cases h with
  | nil => simp at hfull
  | cons x t => rfl

lemma step_sends (s : State) (e : Ev) : (step s e).sends = s.sends := by
  cases e with
  | schedule => exact debouncedSendToWled_sends s
  | draw i c => exact updatePixel_sends s i c

lemma step_ignoreApi (s : State) (e : Ev) : (step s e).ignoreApi = s.ignoreApi := by
  cases e with
  | schedule => exact debouncedSendToWled_ignoreApi s
  | draw i c => exact updatePixel_ignoreApi s i c

lemma run_sends (s : State) (evs : List Ev) : (run s evs).sends = s.sends := by
  induction evs generalizing s with
  | nil => rfl
  | cons e rest ih =>
    show (run (step s e) rest).sends = s.sends
    rw [ih (step s e), step_sends]

lemma run_ignoreApi (s : State) (evs : List Ev) : (run s evs).ignoreApi = s.ignoreApi := by
  induction evs generalizing s with
  | nil => rfl
  | cons e rest ih =>
    show (run (step s e) rest).ignoreApi = s.ignoreApi
    rw [ih (step s e), step_ignoreApi]

lemma step_preserves_armed (s : State) (e : Ev)
    (ht : s.debounceTimer = true) (hc : s.pixelDataChanged = true) :
    (step s e).debounceTimer = true ∧ (step s e).pixelDataChanged = true := by
  cases e with
  | schedule =>
    show (debouncedSendToWled s).debounceTimer = true ∧
      (debouncedSendToWled s).pixelDataChanged = true
    unfold debouncedSendToWled
    split
    · exact ⟨ht, hc⟩
    · dsimp only
      rw [ht]
      simp
  | draw i c =>
    show (updatePixel s i c).debounceTimer = true ∧
      (updatePixel s i c).pixelDataChanged = true
    unfold updatePixel
    split
    · exact ⟨ht, hc⟩
    · exact ⟨ht, rfl⟩

lemma run_preserves_armed (s : State) (evs : List Ev)
    (ht : s.debounceTimer = true) (hc : s.pixelDataChanged = true) :
    (run s evs).debounceTimer = true ∧ (run s evs).pixelDataChanged = true := by
  induction evs generalizing s with
  | nil => exact ⟨ht, hc⟩
  | cons e rest ih =>
    have hstep := step_preserves_armed s e ht hc
    exact ih (step s e) hstep.1 hstep.2

lemma schedule_arms (s : State) (hig : s.ignoreApi = false) :
    (debouncedSendToWled s).debounceTimer = true ∧
    (debouncedSendToWled s).pixelDataChanged = true := by
  unfold debouncedSendToWled
  rw [hig]
  simp only [Bool.false_eq_true, if_false]
  split
  · rename_i hb
    exact ⟨hb, rfl⟩
  · exact ⟨rfl, rfl⟩

lemma run_armed (s : State) (evs : List Ev) (hig : s.ignoreApi = false)
    (hmem : Ev.schedule ∈ evs) :
    (run s evs).debounceTimer = true ∧ (run s evs).pixelDataChanged = true := by
  induction evs generalizing s with
  | nil => cases hmem
  | cons e rest ih =>
    rcases List.mem_cons.1 hmem with heq | hmem'
    · have harm : (step s e).debounceTimer = true ∧ (step s e).pixelDataChanged = true := by
        rw [← heq]
        exact schedule_arms s hig
      exact run_preserves_armed (step s e) rest harm.1 harm.2
    · exact ih (step s e) (by rw [step_ignoreApi]; exact hig) hmem'

lemma fireTimer_sends_armed (s : State) (ht : s.debounceTimer = true)
    (hc : s.pixelDataChanged = true) (hig : s.ignoreApi = false) :
    (fireTimer s).sends = s.sends ++ [wledJson s] := by
  unfold fireTimer sendToWledImmediate
  rw [ht, hc, hig]
  simp

lemma debounced_noop_when_armed (s : State) (hig : s.ignoreApi = false)
    (ht : s.debounceTimer = true) :
    debouncedSendToWled s = { s with pixelDataChanged := true } := by
  unfold debouncedSendToWled
  rw [hig]
  dsimp only
  rw [ht]
  simp

/-- C8.  For every sequence of `scheduleSend` (`debouncedSendToWled`) calls
and pixel edits within one debounce window (no timer expiry in between, at
least one call, device not ignored): no send happens during the window, the
timer expiry performs exactly one send whose payload serialises the grid
state current at that moment, and a call made while the timer is already
running only marks the pending flag (it starts no second timer). -/
theorem C8_debounce_coalescing (s0 : State) (evs : List Ev)
    (hig : s0.ignoreApi = false) (hSched : Ev.schedule ∈ evs) :
    (run s0 evs).sends = s0.sends ∧
    (fireTimer (run s0 evs)).sends = s0.sends ++ [wledJson (run s0 evs)] ∧
    (∀ s : State, s.ignoreApi = false → s.debounceTimer = true →
      debouncedSendToWled s = { s with pixelDataChanged := true }) := by
  have hrs := run_sends s0 evs
  have hig' : (run s0 evs).ignoreApi = false := by rw [run_ignoreApi]; exact hig
  have harm := run_armed s0 evs hig hSched
  refine ⟨hrs, ?_, fun s h1 h2 => debounced_noop_when_armed s h1 h2⟩
  rw [fireTimer_sends_armed _ harm.1 harm.2 hig', hrs]

/-- Witness for `C8_debounce_coalescing`: three schedule calls and one edit
inside one window on a concrete 1×1 state. -/
theorem C8_debounce_coalescing_witness :
    exState.ignoreApi = false ∧
    Ev.schedule ∈ [Ev.schedule, Ev.draw 0 "#00ff00", Ev.schedule, Ev.schedule] ∧
    (run exState [Ev.schedule, Ev.draw 0 "#00ff00", Ev.schedule, Ev.schedule]).sends =
      exState.sends ∧
    (fireTimer (run exState [Ev.schedule, Ev.draw 0 "#00ff00", Ev.schedule, Ev.schedule])).sends =
      exState.sends ++
        [wledJson (run exState [Ev.schedule, Ev.draw 0 "#00ff00", Ev.schedule, Ev.schedule])] := by
  have H := C8_debounce_coalescing exState
    [Ev.schedule, Ev.draw 0 "#00ff00", Ev.schedule, Ev.schedule] (by decide) (by decide)
  exact ⟨by decide, by decide, H.1, H.2.1⟩

set_option maxRecDepth 40000 in
/-- C5.  The history log never exceeds 50 entries; pushing onto a full log
evicts the oldest entry (FIFO); and in the concrete scenario of exactly 51
recorded edits followed by 50 undos the stack is empty while the oldest
(evicted) action remains unapplied: the cell ends at the colour the second
edit recorded (`"1"`), not at the original colour (`"0"`). -/
theorem C5_history_capacity :
    (∀ (h : List HistoryAction) (a : HistoryAction), h.length ≤ 50 →
      (saveToHistoryList h a).length ≤ 50) ∧
    (∀ (h : List HistoryAction) (a : HistoryAction), h.length = 50 →
      saveToHistoryList h a = h.tail ++ [a]) ∧
    (scenario51.history.length = 50 ∧
      scenario51then50undos.history = [] ∧
      scenario51then50undos.pixelData = ["1"] ∧
      scenario51then50undos.pixelData ≠ ["0"]) :=
  ⟨fun h a hle => saveToHistoryList_length_le h a hle,
    fun h a hf => saveToHistoryList_of_full h a hf,
    by decide⟩

/-- Witness for `C5_history_capacity` on a concrete full log of 50
entries. -/
theorem C5_history_capacity_witness :
    ((List.replicate 50 (HistoryAction.draw 0 "x")).length ≤ 50 ∧
      (List.replicate 50 (HistoryAction.draw 0 "x")).length = 50) ∧
    (saveToHistoryList (List.replicate 50 (HistoryAction.draw 0 "x"))
        (HistoryAction.draw 0 "y")).length ≤ 50 ∧
    saveToHistoryList (List.replicate 50 (HistoryAction.draw 0 "x")) (HistoryAction.draw 0 "y") =
      (List.replicate 50 (HistoryAction.draw 0 "x")).tail ++ [HistoryAction.draw 0 "y"] :=
  ⟨⟨by decide, by decide⟩,
    C5_history_capacity.1 _ _ (by decide),
    C5_history_capacity.2.1 _ _ (by decide)⟩

end WledDraw

namespace WledDraw

lemma updatePixel_of_same (s : State) (i : Nat) (c : String)
    (h : s.pixelData[i]? = some c) : updatePixel s i c = s := by
  unfold updatePixel
  rw [if_pos h]

lemma setupGrid_gridWidth (s : State) : (setupGrid s).gridWidth = s.gridWidth := by
  unfold setupGrid
  dsimp only
  split <;> rfl

lemma setupGrid_gridHeight (s : State) : (setupGrid s).gridHeight = s.gridHeight := by
  unfold setupGrid
  dsimp only
  split <;> rfl

lemma setupGrid_pixelData_length (s : State) :
    (setupGrid s).pixelData.length = s.gridWidth * s.gridHeight := by
  unfold setupGrid
  dsimp only
  split <;> simp

lemma dimsInvariant_setupGrid (s : State) : dimsInvariant (setupGrid s) := by
  unfold dimsInvariant
  rw [setupGrid_pixelData_length, setupGrid_gridWidth, setupGrid_gridHeight]

lemma clearScreen_pixelData (s : State) :
    (clearScreen s).pixelData = List.replicate (s.gridWidth * s.gridHeight) "#000000" := by
  unfold clearScreen
  rw [debouncedSendToWled_pixelData, saveToLocalStorage_pixelData]
  rfl

lemma clearScreen_gridWidth (s : State) : (clearScreen s).gridWidth = s.gridWidth := by
  unfold clearScreen
  rw [debouncedSendToWled_gridWidth, saveToLocalStorage_gridWidth]
  rfl

lemma clearScreen_gridHeight (s : State) : (clearScreen s).gridHeight = s.gridHeight := by
  unfold clearScreen
  rw [debouncedSendToWled_gridHeight, saveToLocalStorage_gridHeight]
  rfl

lemma dimsInvariant_clearScreen (s : State) : dimsInvariant (clearScreen s) := by
  unfold dimsInvariant
  rw [clearScreen_pixelData, clearScreen_gridWidth, clearScreen_gridHeight,
    List.length_replicate]

lemma updatePixel_preserves_dims (s : State) (i : Nat) (c : String)
    (hi : i < s.pixelData.length) (hinv : dimsInvariant s) :
    dimsInvariant (updatePixel s i c) := by
  unfold dimsInvariant at hinv ⊢
  rw [updatePixel_gridWidth, updatePixel_gridHeight]
  by_cases h : s.pixelData[i]? = some c
  · rw [updatePixel_of_same s i c h]
    exact hinv
  · rw [updatePixel_pixelData_of_change s i c h, length_jsArraySet_of_lt _ _ _ hi]
    exact hinv

lemma batchFold_preserves (c : String) (idxs : List Nat) :
    ∀ st : State,
      ((idxs.foldl
          (fun st index =>
            if index < st.pixelData.length ∧ st.pixelData[index]? ≠ some c then
              let st := saveToHistory st (.draw index (st.pixelData.getD index ""))
              { st with pixelData := jsArraySet st.pixelData index c }
            else st) st).pixelData.length = st.pixelData.length ∧
        (idxs.foldl
          (fun st index =>
            if index < st.pixelData.length ∧ st.pixelData[index]? ≠ some c then
              let st := saveToHistory st (.draw index (st.pixelData.getD index ""))
              { st with pixelData := jsArraySet st.pixelData index c }
            else st) st).gridWidth = st.gridWidth ∧
        (idxs.foldl
          (fun st index =>
            if index < st.pixelData.length ∧ st.pixelData[index]? ≠ some c then
              let st := saveToHistory st (.draw index (st.pixelData.getD index ""))
              { st with pixelData := jsArraySet st.pixelData index c }
            else st) st).gridHeight = st.gridHeight) := by
  induction idxs with
  | nil => intro st; exact ⟨rfl, rfl, rfl⟩
  | cons i rest ih =>
    intro st
    simp only [List.foldl_cons]
    by_cases hcond : i < st.pixelData.length ∧ st.pixelData[i]? ≠ some c
    · rw [if_pos hcond]
      have hstep := ih { saveToHistory st (.draw i (st.pixelData.getD i "")) with
        pixelData := jsArraySet (saveToHistory st (.draw i (st.pixelData.getD i ""))).pixelData i c }
      refine ⟨?_, ?_, ?_⟩
      · rw [hstep.1]
        exact length_jsArraySet_of_lt _ _ _ hcond.1
      · exact hstep.2.1
      · exact hstep.2.2
    · rw [if_neg hcond]
      exact ih st

lemma batchUpdatePixels_preserves_dims (s : State) (idxs : List Nat) (c : String)
    (hinv : dimsInvariant s) : dimsInvariant (batchUpdatePixels s idxs c) := by
  unfold dimsInvariant at hinv ⊢
  unfold batchUpdatePixels
  rw [debouncedSendToWled_pixelData, saveToLocalStorage_pixelData,
    debouncedSendToWled_gridWidth, saveToLocalStorage_gridWidth,
    debouncedSendToWled_gridHeight, saveToLocalStorage_gridHeight]
  dsimp only
  have hfold := batchFold_preserves c idxs s
  rw [hfold.1, hfold.2.1, hfold.2.2]
  exact hinv

lemma applyPixelArray_preserves_dims (s : State) (ps : List String)
    (hinv : dimsInvariant s) : dimsInvariant (applyPixelArray s ps) := by
  unfold applyPixelArray
  split
  · exact hinv
  · rename_i hcond
    have hlen : ps.length = s.pixelData.length := by
      rcases not_or.1 hcond with ⟨h1, h2⟩
      exact not_not.1 h2
    unfold dimsInvariant at hinv ⊢
    rw [debouncedSendToWled_pixelData, saveToLocalStorage_pixelData,
      debouncedSendToWled_gridWidth, saveToLocalStorage_gridWidth,
      debouncedSendToWled_gridHeight, saveToLocalStorage_gridHeight]
    dsimp only
    rw [hlen]
    exact hinv

lemma undo_preserves_dims_compatible (s : State) (hinv : dimsInvariant s)
    (hcomp :
      match s.history.getLast? with
      | some (.clear ps) => ps.length = s.gridWidth * s.gridHeight
      | some (.draw i _) => i < s.pixelData.length
      | none => True) : dimsInvariant (undo s) := by
  cases hgl : s.history.getLast? with
  | none =>
    unfold undo
    rw [hgl]
    exact hinv
  | some a =>
    rw [hgl] at hcomp
    cases a with
    | draw i c =>
      have h := undo_of_getLast?_draw s i c hgl
      unfold dimsInvariant
      rw [h.1, h.2.1, h.2.2, length_jsArraySet_of_lt _ _ _ hcomp]
      exact hinv
    | clear ps =>
      have h := undo_of_getLast?_clear s ps hgl
      unfold dimsInvariant
      rw [h.1, h.2.1, h.2.2]
      exact hcomp

/-- C4, counterexample.  `cells.length === width*height` does NOT hold at
all times: clearing a 1×1 grid records a 1-cell snapshot, resizing to 1×2
rebuilds a 2-cell buffer but reloads the old history, and the following
`undo()` restores the 1-cell snapshot on the 1×2 grid — the invariant is
violated. -/
theorem C4_counterexample :
    ¬ dimsInvariant (undo (resize (clearScreen exState) 1 2)) := by decide

/-- C4, amended.  `cells.length = width*height` holds after `setupGrid`,
after every resize, after `clearScreen`, after every in-range `updatePixel`,
after every `batchUpdatePixels` and `applyPixelArray`, and after an `undo`
whose undone action is compatible with the current dimensions (a `ClearAll`
snapshot of the current size, or a `Draw` at an in-range index).  It is NOT
preserved by undoing an action recorded before a dimension change (see the
counterexample). -/
theorem C4_amended (s : State) :
    dimsInvariant (setupGrid s) ∧
    (∀ w h, dimsInvariant (resize s w h)) ∧
    dimsInvariant (clearScreen s) ∧
    (∀ i c, i < s.pixelData.length → dimsInvariant s → dimsInvariant (updatePixel s i c)) ∧
    (∀ idxs c, dimsInvariant s → dimsInvariant (batchUpdatePixels s idxs c)) ∧
    (∀ ps, dimsInvariant s → dimsInvariant (applyPixelArray s ps)) ∧
    (dimsInvariant s →
      (match s.history.getLast? with
        | some (.clear ps) => ps.length = s.gridWidth * s.gridHeight
        | some (.draw i _) => i < s.pixelData.length
        | none => True) →
      dimsInvariant (undo s)) :=
  ⟨dimsInvariant_setupGrid s,
    fun w h => dimsInvariant_setupGrid { s with gridWidth := w, gridHeight := h },
    dimsInvariant_clearScreen s,
    fun i c hi hinv => updatePixel_preserves_dims s i c hi hinv,
    fun idxs c hinv => batchUpdatePixels_preserves_dims s idxs c hinv,
    fun ps hinv => applyPixelArray_preserves_dims s ps hinv,
    fun hinv hcomp => undo_preserves_dims_compatible s hinv hcomp⟩

/-- Witness for `C4_amended` on a concrete 1×1 state. -/
theorem C4_amended_witness :
    (0 < exState.pixelData.length ∧ dimsInvariant exState) ∧
    dimsInvariant (setupGrid exState) ∧
    dimsInvariant (resize exState 3 4) ∧
    dimsInvariant (clearScreen exState) ∧
    dimsInvariant (updatePixel exState 0 "#00ff00") ∧
    dimsInvariant (undo exState) := by
  have H := C4_amended exState
  exact ⟨⟨by decide, by decide⟩, H.1, H.2.1 3 4, H.2.2.1,
    H.2.2.2.1 0 "#00ff00" (by decide) (by decide),
    H.2.2.2.2.2.2 (by decide) trivial⟩

end WledDraw
